import Mathlib

/-!
Verification development for the `@al/session` client library.

The development shallowly embeds the session-management core of the
repository:

* a small model of JavaScript runtime values (`JsonValue`) with the
  truthiness, `typeof`, property-lookup and `Object.assign` semantics the
  code relies on;
* `AlSessionInstance` (`src/al-session.ts`): descriptor validation,
  `setAuthentication`, `setActingAccount`, datacenter binding, activation;
* `AlConduitClient` (the cross-frame relay transport/client): message
  gating, the readiness handshake, correlated requests and timeouts;
* `AlSessionDetector`: the discovery orchestration and JWT expiry
  extraction.

External collaborators (the AIMS identity backend, the subscriptions
backend, the locator service, the browser's `atob`/`JSON.parse`) are
modeled as explicit oracle parameters; network calls and emitted lifecycle
events are reified as effect lists so that theorems can speak about what a
call fires.
-/

/-- Model of a JavaScript/JSON runtime value.  `undefined` models the
JavaScript `undefined` value (the result of reading an absent property);
`num` models JSON numbers (integral values suffice for every comparison
the code performs). -/
inductive JsonValue where
  | undefined : JsonValue
  | null : JsonValue
  | bool (b : Bool) : JsonValue
  | num (n : Int) : JsonValue
  | str (s : String) : JsonValue
  | arr (items : List JsonValue) : JsonValue
  | obj (fields : List (String × JsonValue)) : JsonValue

/-- JavaScript truthiness of a value. -/
def JsonValue.truthy : JsonValue → Bool
  | .undefined => false
  | .null => false
  | .bool b => b
  | .num n => n != 0
  | .str s => s != ""
  | .arr _ => true
  | .obj _ => true

/-- JavaScript `typeof` of a value (note `typeof null === "object"`, and
arrays are objects). -/
def JsonValue.jsTypeOf : JsonValue → String
  | .undefined => "undefined"
  | .null => "object"
  | .bool _ => "boolean"
  | .num _ => "number"
  | .str _ => "string"
  | .arr _ => "object"
  | .obj _ => "object"

/-- First-match lookup in an association list of object fields. -/
def lookupField : List (String × JsonValue) → String → Option JsonValue
  | [], _ => none
  | (k, v) :: rest, name => if k = name then some v else lookupField rest name

/-- Property read `target[name]`: yields `undefined` when the property is
absent or the target is not an object. -/
def JsonValue.getProp (target : JsonValue) (name : String) : JsonValue :=
  match target with
  | .obj fields => (lookupField fields name).getD .undefined
  | _ => .undefined

/-- `target.hasOwnProperty(name)`, restricted to the object case the code
exercises (primitives and arrays report `false` for the property names the
validator probes). -/
def JsonValue.hasProp (target : JsonValue) (name : String) : Bool :=
  match target with
  | .obj fields => (lookupField fields name).isSome
  | _ => false

/-- The own enumerable fields a value contributes when used with
`Object.assign`: objects contribute their fields, arrays contribute their
indexed elements, primitives and null/undefined contribute nothing. -/
def toObjFields : JsonValue → List (String × JsonValue)
  | .obj fields => fields
  | .arr items => (items.enum.map fun p => (toString p.1, p.2))
  | _ => []

/-- `Object.assign(target, source)`: the result is an object whose
property reads give the source's value when the source carries the
property and the target's value otherwise (modeled with first-match
lookup, source fields first). -/
def objAssign (target source : JsonValue) : JsonValue :=
  .obj (toObjFields source ++ toObjFields target)

/-- String content of a value, defaulting to `""` for non-strings. -/
def asStringD : JsonValue → String
  | .str s => s
  | _ => ""

/-- String content of a value, when it is a string. -/
def asStringOpt : JsonValue → Option String
  | .str s => some s
  | _ => none

/-- Numeric content of a value, defaulting to `0` for non-numbers. -/
def asIntD : JsonValue → Int
  | .num n => n
  | _ => 0

/-- One step of the validator's `requireProps` closure: walks the
required-property table and reports the first property that is missing or
of the wrong `typeof`. -/
def requireProps (target : JsonValue) : List (String × String) → String → Except String Unit
  | [], _ => .ok ()
  | (propName, propType) :: rest, jsonPath =>
    if target.hasProp propName && (target.getProp propName).jsTypeOf == propType then
      requireProps target rest jsonPath
    else
      .error ("The provided data does not match the schema for a session descriptor: "
              ++ jsonPath ++ "." ++ propName ++ " is missing or of the wrong type.")

/-- `AlSessionInstance.validateSessionDescriptor`: the simplified schema
check applied to each session proposal. -/
def validateSessionDescriptor (descriptor : JsonValue) : Except String Unit := do
  if !descriptor.truthy || !(descriptor.getProp "authentication").truthy then
    throw "The provided data does not match the schema for a session descriptor"
  let authentication := descriptor.getProp "authentication"
  requireProps authentication
    [("token", "string"), ("token_expiration", "number"), ("user", "object"), ("account", "object")]
    ".authentication"
  requireProps (authentication.getProp "user")
    [("id", "string"), ("name", "string"), ("email", "string"), ("linked_users", "object"),
     ("created", "object"), ("modified", "object")]
    ".authentication.user"
  requireProps (authentication.getProp "account")
    [("id", "string"), ("name", "string"), ("accessible_locations", "object"),
     ("default_location", "string"), ("created", "object"), ("modified", "object")]
    ".authentication.account"

/-- Opaque entitlement collection from the external subscriptions package;
only construction from raw backend payloads and wholesale storage are
observable to the session core. -/
structure AlEntitlementCollection where
  records : List String := []
deriving DecidableEq, Repr

/-- Opaque experience/feature tree from the external types module. -/
structure AlExperienceTree where
  deriving DecidableEq, Repr

/-- The typed account record handled by `setActingAccount` and the
resolution machinery.  Only the fields those code paths dereference are
modeled (`id`, `accessible_locations`, `default_location`). -/
structure AIMSAccount where
  id : String
  accessible_locations : List String
  default_location : String
deriving DecidableEq, Repr

/-- `AlActingAccountResolvedEvent(actingAccount, entitlements,
primaryEntitlements, experiences)`. -/
structure AlActingAccountResolvedEvent where
  actingAccount : Option AIMSAccount
  entitlements : AlEntitlementCollection
  primaryEntitlements : AlEntitlementCollection
  experiences : AlExperienceTree
deriving DecidableEq, Repr

/-- The `authentication` block of the in-memory descriptor.  `user` and
`account` stay JavaScript objects (the code merges arbitrary proposal
fields into them); `token` and `token_expiration` are read and written as
scalars. -/
structure AuthenticationData where
  user : JsonValue
  account : JsonValue
  token : String
  token_expiration : Int

/-- The in-memory `AIMSSessionDescriptor` held in `sessionData`.  `acting`
is `none` when the slot is JavaScript-undefined. -/
structure SessionData where
  authentication : AuthenticationData
  acting : Option AIMSAccount
  boundLocationId : Option String

/-- `AlSessionOptions`. -/
structure AlSessionOptions where
  resolveAccountMetadata : Bool := true
  useConsolidatedResolver : Bool := false
deriving DecidableEq, Repr

/-- The whole mutable state of an `AlSessionInstance`, together with the
process-global cells the code writes (`AlCabinet` persistent storage under
the `"session"` key, `ALClient.defaultAccountId`). -/
structure SessionState where
  sessionIsActive : Bool
  sessionData : SessionData
  resolvedAccount : AlActingAccountResolvedEvent
  guardFulfilled : Bool
  storage : Option SessionData
  options : AlSessionOptions
  defaultAccountId : Option String

/-- Network calls, lifecycle events and diagnostics a session operation
fires, in program order. -/
inductive SessionEffect where
  | netGetAccountDetails (accountId : String)
  | netGetEntitlements (accountId : Option String)
  | netGetConsolidatedMetadata (accountId : String)
  | evActingAccountChanged (previousAccount : Option AIMSAccount) (actingAccount : AIMSAccount)
  | evActingAccountResolved (resolved : AlActingAccountResolvedEvent)
  | evActiveDatacenterChanged (insightLocationId : String)
  | evSessionStarted
  | evSessionEnded
  | setLocatorContext
  | setInternalUser (internal : Bool)
  | logWarning (message : String)
  | logError (message : String)
deriving DecidableEq, Repr

/-- Raw consolidated-metadata payload returned by the gestalt endpoint. -/
structure AlConsolidatedAccountMetadata where
  actingAccount : AIMSAccount
  primaryEntitlements : List String
  effectiveEntitlements : List String
  experiences : AlExperienceTree

/-- `AlEntitlementCollection.import` applied to a raw payload. -/
def entitlementsImport (raw : List String) : AlEntitlementCollection := ⟨raw⟩

/-- Oracles for the external collaborators the session core calls out to:
the AIMS account endpoint, the subscriptions entitlement endpoint, the
consolidated gestalt resolver, and the locator package's registry of known
insight locations (`AlInsightLocations`). -/
structure AlExternalServices where
  getAccountDetails : String → Except String AIMSAccount
  getEntitlements : Option String → Except String AlEntitlementCollection
  getConsolidatedMetadata : String → Except String AlConsolidatedAccountMetadata
  insightLocations : List String

/-- The null-session `authentication.user` object from `null-session.ts`. -/
def nullSessionUser : JsonValue :=
  .obj [("id", .str "0"), ("name", .str "Unauthenticated User"),
        ("email", .str "unauthenticated_user@unknown.com"),
        ("active", .bool false), ("locked", .bool true), ("version", .num 1),
        ("created", .obj [("at", .num 0), ("by", .str "")]),
        ("modified", .obj [("at", .num 0), ("by", .str "")]),
        ("linked_users", .arr [])]

/-- The null-session `authentication.account` object from
`null-session.ts`. -/
def nullSessionAccount : JsonValue :=
  .obj [("id", .str "0"), ("name", .str "Unknown Company"),
        ("active", .bool false), ("accessible_locations", .arr []),
        ("default_location", .str ""),
        ("created", .obj [("at", .num 0), ("by", .str "")]),
        ("modified", .obj [("at", .num 0), ("by", .str "")])]

/-- The null-session `acting` account record (id `"0"`, no accessible
locations, empty default location). -/
def nullActingAccount : AIMSAccount :=
  { id := "0", accessible_locations := [], default_location := "" }

/-- `AlNullSessionDescriptor` as held in `sessionData` after construction
or deactivation. -/
def nullSessionData : SessionData :=
  { authentication :=
      { user := nullSessionUser, account := nullSessionAccount,
        token := "", token_expiration := 0 },
    acting := some nullActingAccount,
    boundLocationId := none }

/-- State of a freshly constructed `AlSessionInstance` before any
persisted session is reinstated. -/
def initialSessionState : SessionState :=
  { sessionIsActive := false,
    sessionData := nullSessionData,
    resolvedAccount := ⟨none, ⟨[]⟩, ⟨[]⟩, ⟨⟩⟩,
    guardFulfilled := false,
    storage := none,
    options := {},
    defaultAccountId := none }

/-- `isActive()`. -/
def SessionState.isActive (st : SessionState) : Bool :=
  st.sessionIsActive

/-- `getToken()`. -/
def SessionState.getToken (st : SessionState) : String :=
  st.sessionData.authentication.token

/-- `getTokenExpiry()`. -/
def SessionState.getTokenExpiry (st : SessionState) : Int :=
  st.sessionData.authentication.token_expiration

/-- `getPrimaryAccountId()`: the authenticated account's id while active,
a null sentinel otherwise. -/
def SessionState.getPrimaryAccountId (st : SessionState) : Option String :=
  if st.isActive then asStringOpt (st.sessionData.authentication.account.getProp "id") else none

/-- `getActingAccountId()`: the acting account's id while active, a null
sentinel otherwise. -/
def SessionState.getActingAccountId (st : SessionState) : Option String :=
  if st.isActive then st.sessionData.acting.map (fun a => a.id) else none

/-- `setActiveDatacenter(insightLocationId)`: rebinds the location when it
differs from (or there is no) current binding, persists the descriptor and
announces the change when the location is a known insight location. -/
def setActiveDatacenter (ext : AlExternalServices) (st : SessionState)
    (insightLocationId : String) : SessionState × List SessionEffect :=
  if st.sessionData.boundLocationId.isNone || st.sessionData.boundLocationId != some insightLocationId then
    let sessionData := { st.sessionData with boundLocationId := some insightLocationId }
    let st := { st with sessionData := sessionData, storage := some sessionData }
    let effects :=
      if ext.insightLocations.contains insightLocationId then
        [SessionEffect.setLocatorContext, SessionEffect.evActiveDatacenterChanged insightLocationId]
      else
        [SessionEffect.setLocatorContext]
    (st, effects)
  else
    (st, [])

/-- `activateSession()`: marks the session active when the stored expiry
is still in the future, and fires the session-started notification on a
genuine inactive-to-active transition. -/
def activateSession (now : Int) (st : SessionState) : SessionState × List SessionEffect :=
  let wasActive := st.sessionIsActive
  let st :=
    if st.sessionData.authentication.token_expiration > now then
      { st with sessionIsActive := true }
    else
      st
  if st.sessionIsActive then
    let effects :=
      [SessionEffect.setInternalUser (st.getPrimaryAccountId == some "2")]
      ++ (if !wasActive then [SessionEffect.evSessionStarted] else [])
    (st, effects)
  else
    (st, [])

/-- `deactivateSession()`: resets the descriptor to the null sentinel,
clears persisted storage and announces the session's end. -/
def deactivateSession (st : SessionState) : SessionState × List SessionEffect :=
  ({ st with sessionData := nullSessionData, sessionIsActive := false,
             storage := none, defaultAccountId := none },
   [SessionEffect.evSessionEnded])

/-- `resolveActingAccount(account)`: fetches the full account details and
the primary-account entitlements (plus the acting-account entitlements
when acting differs from primary), then captures the merged result,
fulfills the resolution guard and announces resolution.  A failed fetch
rejects without capturing anything. -/
def resolveActingAccount (ext : AlExternalServices) (st : SessionState) (account : AIMSAccount) :
    SessionState × List SessionEffect × Except String AlActingAccountResolvedEvent :=
  let primaryId := st.getPrimaryAccountId
  let actingDiffers := some account.id != primaryId
  let requests :=
    [SessionEffect.netGetAccountDetails account.id, SessionEffect.netGetEntitlements primaryId]
    ++ (if actingDiffers then [SessionEffect.netGetEntitlements (some account.id)] else [])
  match ext.getAccountDetails account.id, ext.getEntitlements primaryId with
  | .ok accountDetails, .ok primaryEntitlements =>
    let actingEntitlements :=
      if actingDiffers then ext.getEntitlements (some account.id) else .ok primaryEntitlements
    match actingEntitlements with
    | .ok actingEntitlements =>
      let resolved : AlActingAccountResolvedEvent :=
        ⟨some accountDetails, actingEntitlements, primaryEntitlements, ⟨⟩⟩
      ({ st with resolvedAccount := resolved, guardFulfilled := true },
       requests ++ [SessionEffect.evActingAccountResolved resolved], .ok resolved)
    | .error e =>
      (st, requests ++ [SessionEffect.logError ("Error: could not resolve the acting account to "
                                                ++ account.id)], .error e)
  | .error e, _ =>
    (st, requests ++ [SessionEffect.logError ("Error: could not resolve the acting account to "
                                              ++ account.id)], .error e)
  | _, .error e =>
    (st, requests ++ [SessionEffect.logError ("Error: could not resolve the acting account to "
                                              ++ account.id)], .error e)

/-- `resolveActingAccountConsolidated(account)`: queries the gestalt
metadata endpoint and captures its result; any failure falls back to the
default resolution method with a logged warning. -/
def resolveActingAccountConsolidated (ext : AlExternalServices) (st : SessionState)
    (account : AIMSAccount) :
    SessionState × List SessionEffect × Except String AlActingAccountResolvedEvent :=
  match ext.getConsolidatedMetadata account.id with
  | .ok metadata =>
    let resolved : AlActingAccountResolvedEvent :=
      ⟨some metadata.actingAccount, entitlementsImport metadata.effectiveEntitlements,
       entitlementsImport metadata.primaryEntitlements, metadata.experiences⟩
    ({ st with resolvedAccount := resolved, guardFulfilled := true },
     [SessionEffect.netGetConsolidatedMetadata account.id,
      SessionEffect.evActingAccountResolved resolved], .ok resolved)
  | .error _ =>
    let (st, effects, result) := resolveActingAccount ext st account
    (st, SessionEffect.netGetConsolidatedMetadata account.id
         :: SessionEffect.logWarning "Failed to retrieve consolidated account metadata: falling back to default resolution method."
         :: effects, result)

/-- The body of `setActingAccount` once a full account record is in hand:
records the acting account, rebinds the location (preferring the previous
bound location when the new account can access it), publishes the default
account id, and either short-circuits (metadata resolution disabled, or
account unchanged with resolution already complete) or rescinds the guard,
fires the changing event, persists and resolves. -/
def setActingAccountRecord (ext : AlExternalServices) (st : SessionState) (account : AIMSAccount) :
    SessionState × List SessionEffect × Except String AlActingAccountResolvedEvent :=
  let previousAccount := st.sessionData.acting
  let actingAccountChanged :=
    match st.sessionData.acting with
    | none => true
    | some acting => acting.id != account.id
  let st := { st with sessionData := { st.sessionData with acting := some account } }
  let targetLocationId :=
    match st.sessionData.boundLocationId with
    | some bound => if account.accessible_locations.contains bound then bound
                    else account.default_location
    | none => account.default_location
  let dcStep := setActiveDatacenter ext st targetLocationId
  let dcEffects := dcStep.2
  let st := { dcStep.1 with defaultAccountId := some account.id }
  if !st.options.resolveAccountMetadata then
    let resolved : AlActingAccountResolvedEvent := ⟨some account, ⟨[]⟩, ⟨[]⟩, ⟨⟩⟩
    ({ st with resolvedAccount := resolved, guardFulfilled := true },
     dcEffects ++ [SessionEffect.evActingAccountChanged previousAccount account,
                   SessionEffect.evActingAccountResolved resolved],
     .ok resolved)
  else if actingAccountChanged || !st.guardFulfilled then
    let st := { st with guardFulfilled := false, storage := some st.sessionData }
    let preEffects :=
      dcEffects ++ [SessionEffect.setLocatorContext,
                    SessionEffect.evActingAccountChanged previousAccount account]
    let resStep :=
      if st.options.useConsolidatedResolver then resolveActingAccountConsolidated ext st account
      else resolveActingAccount ext st account
    (resStep.1, preEffects ++ resStep.2.1, resStep.2.2)
  else
    (st, dcEffects, .ok st.resolvedAccount)

/-- The argument accepted by `setActingAccount`: a null-ish value, a bare
account id, or a full account record. -/
inductive ActingAccountArg where
  | nullish : ActingAccountArg
  | byId (accountId : String) : ActingAccountArg
  | byRecord (account : AIMSAccount) : ActingAccountArg
deriving DecidableEq, Repr

/-- JavaScript truthiness of a `setActingAccount` argument (an empty id
string is falsy). -/
def ActingAccountArg.argTruthy : ActingAccountArg → Bool
  | .nullish => false
  | .byId accountId => accountId != ""
  | .byRecord _ => true

/-- `setActingAccount(account)`: rejects a falsy argument, resolves a bare
id through the account-details endpoint first, and otherwise hands the
record to the main body. -/
def setActingAccount (ext : AlExternalServices) (st : SessionState) (account : ActingAccountArg) :
    SessionState × List SessionEffect × Except String AlActingAccountResolvedEvent :=
  if !account.argTruthy then
    (st, [], .error "Usage error: setActingAccount requires an account ID or account descriptor.")
  else
    match account with
    | .byId accountId =>
      match ext.getAccountDetails accountId with
      | .ok accountDetails =>
        let step := setActingAccountRecord ext st accountDetails
        (step.1, SessionEffect.netGetAccountDetails accountId :: step.2.1, step.2.2)
      | .error e =>
        (st, [SessionEffect.netGetAccountDetails accountId], .error e)
    | .byRecord account => setActingAccountRecord ext st account
    | .nullish =>
      (st, [], .error "Usage error: setActingAccount requires an account ID or account descriptor.")

/-- Reading of a JavaScript account value into the typed record
`setActingAccount` dereferences.  Fails (`none`) when the value lacks a
string `id`, an `accessible_locations` array or a string
`default_location` — the shapes on which the original code would crash
with a `TypeError` while dereferencing. -/
def parseAIMSAccount (v : JsonValue) : Option AIMSAccount :=
  match asStringOpt (v.getProp "id"), v.getProp "accessible_locations",
        asStringOpt (v.getProp "default_location") with
  | some accountId, .arr items, some defaultLocation =>
    some { id := accountId,
           accessible_locations := items.filterMap asStringOpt,
           default_location := defaultLocation }
  | _, _, _ => none

/-- Interpretation of a JavaScript value passed where `setActingAccount`
expects `string|AIMSAccount`: falsy values map to the null-ish argument,
strings to bare ids, and object shapes to parsed records (an unparseable
object models the `TypeError` the dereferences would raise). -/
def jsonToActingArg (v : JsonValue) : Except String ActingAccountArg :=
  if !v.truthy then .ok .nullish
  else
    match v with
    | .str s => .ok (.byId s)
    | _ =>
      match parseAIMSAccount v with
      | some account => .ok (.byRecord account)
      | none => .error "TypeError: malformed account record"

/-- The `options` argument of `setAuthentication`. -/
structure AlSessionAuthOptions where
  actingAccount : Option ActingAccountArg := none
  locationId : Option String := none

/-- `setAuthentication(proposal, options)`: validates the proposal's
shape, rejects a non-future expiry, merges the proposal's user/account
into the descriptor, stores token and expiry, optionally binds the
requested location, activates the session, sets the acting account (the
explicit option, else the proposal's `acting`, else the authenticated
account) and finally persists the descriptor.  The returned state is the
state at the point of return or throw. -/
def setAuthentication (now : Int) (ext : AlExternalServices) (st : SessionState)
    (proposal : JsonValue) (options : AlSessionAuthOptions) :
    SessionState × List SessionEffect × Except String AlActingAccountResolvedEvent :=
  match validateSessionDescriptor proposal with
  | .error e =>
    (st, [SessionEffect.logError "Failed to set authentication with malformed data"], .error e)
  | .ok _ =>
    let authentication := proposal.getProp "authentication"
    if asIntD (authentication.getProp "token_expiration") ≤ now then
      (st, [], .error "AIMS authentication response contains unexpected expiration timestamp in the past")
    else
      let sessionData := st.sessionData
      let mergedAuthentication : AuthenticationData :=
        { user := objAssign sessionData.authentication.user (authentication.getProp "user"),
          account := objAssign sessionData.authentication.account (authentication.getProp "account"),
          token := asStringD (authentication.getProp "token"),
          token_expiration := asIntD (authentication.getProp "token_expiration") }
      let sessionData := { sessionData with authentication := mergedAuthentication }
      let sessionData :=
        match options.locationId with
        | some locationId =>
          if locationId != "" then { sessionData with boundLocationId := some locationId }
          else sessionData
        | none => sessionData
      let st := { st with sessionData := sessionData }
      let activateStep := activateSession now st
      let st := activateStep.1
      let activateEffects := activateStep.2
      let actingChoice : Except String ActingAccountArg :=
        match options.actingAccount with
        | some arg => if arg.argTruthy then .ok arg else
            (if (proposal.getProp "acting").truthy then jsonToActingArg (proposal.getProp "acting")
             else jsonToActingArg (authentication.getProp "account"))
        | none =>
          if (proposal.getProp "acting").truthy then jsonToActingArg (proposal.getProp "acting")
          else jsonToActingArg (authentication.getProp "account")
      match actingChoice with
      | .error e => (st, activateEffects, .error e)
      | .ok actingArg =>
        let actingStep := setActingAccount ext st actingArg
        let st := actingStep.1
        let actingEffects := actingStep.2.1
        ({ st with storage :=
             if actingStep.2.2.isOk then some st.sessionData else st.storage },
         activateEffects ++ actingEffects, actingStep.2.2)

/-- A node of the external locator service's registry, as consulted by the
message-origin check. -/
structure AlLocatorNode where
  locTypeId : String
deriving DecidableEq, Repr

/-- `AlLocation.AccountsUI`: the location-type identifier of the
console.account application (opaque constant from the locator package). -/
def accountsUILocType : String := "cd14:accounts"

/-- `AlLocation.LegacyUI`: the location-type identifier of the legacy
defender console (opaque constant from the locator package). -/
def legacyUILocType : String := "cd14:legacy"

/-- `AlLocatorService.resolveURL(AlLocation.AccountsUI, null, {residency:
'US'})`: the fixed trusted target origin every conduit message is posted
to (value asserted by the repository's own conduit test). -/
def conduitTargetOrigin : String := "https://console.account.alertlogic.com"

/-- A message event as seen by the conduit's global `message` listener.
`source` is an opaque window handle (`none` models a falsy source). -/
structure ConduitEvent where
  data : JsonValue
  origin : String
  source : Option Nat

/-- A message send queued on the readiness promise: the closure captured
by `request` before the handshake has completed. -/
structure QueuedSend where
  methodName : String
  requestId : String
  data : List (String × JsonValue)

/-- Shared static state of `AlConduitClient`: the relay window handle and
origin, the readiness behavior promise (its fulfilled flag plus the sends
awaiting it), the pending-request map (modeled by its key set, in
insertion order), the per-location external-session registry and the
request counter. -/
structure ConduitState where
  conduitWindow : Option Nat
  conduitOrigin : Option String
  readyFulfilled : Bool
  readyQueue : List QueuedSend
  requests : List String
  externalSessions : List String
  requestIndex : Nat

/-- Static state of `AlConduitClient` at module load. -/
def initialConduitState : ConduitState :=
  { conduitWindow := none, conduitOrigin := none, readyFulfilled := false,
    readyQueue := [], requests := [], externalSessions := [], requestIndex := 0 }

/-- Observable actions of the conduit: posted relay messages, settlements
of pending request promises, timer registrations and diagnostics. -/
inductive ConduitEffect where
  | postMessage (payload : JsonValue) (targetOrigin : String)
  | resolveRequest (requestId : String) (data : JsonValue)
  | rejectRequest (requestId : String) (message : String)
  | scheduleTimeout (requestId : String) (methodName : String) (seconds : Nat)
  | resolveExternalSession (locationId : String)
  | logWarning (message : String)

/-- The outgoing payload `Object.assign({type: methodName, requestId}, data)`. -/
def conduitPayload (methodName requestId : String) (data : List (String × JsonValue)) : JsonValue :=
  objAssign (.obj [("type", .str methodName), ("requestId", .str requestId)]) (.obj data)

/-- `AlConduitClient.request(methodName, data, timeout)`: allocates the
next request id, registers the pending entry immediately, posts the
payload when the transport is already ready (queueing it on the readiness
promise otherwise), and schedules the companion timeout when one is
requested.  `rand` models the random id suffix. -/
def conduitRequest (st : ConduitState) (methodName : String) (data : List (String × JsonValue))
    (timeoutSeconds : Nat) (rand : Nat) : ConduitState × List ConduitEffect × String :=
  let requestId := "conduit-request-" ++ toString (st.requestIndex + 1) ++ "-" ++ toString rand
  let st := { st with requestIndex := st.requestIndex + 1, requests := st.requests ++ [requestId] }
  let (st, sendEffects) :=
    if st.readyFulfilled then
      (st, [ConduitEffect.postMessage (conduitPayload methodName requestId data) conduitTargetOrigin])
    else
      ({ st with readyQueue := st.readyQueue ++ [⟨methodName, requestId, data⟩] }, [])
  let timeoutEffects :=
    if timeoutSeconds > 0 then [ConduitEffect.scheduleTimeout requestId methodName timeoutSeconds]
    else []
  (st, sendEffects ++ timeoutEffects, requestId)

/-- `AlConduitClient.onConduitReady(event)`: records the relay frame's
window handle and origin and resolves the shared readiness promise, which
releases every queued send. -/
def onConduitReady (st : ConduitState) (event : ConduitEvent) : ConduitState × List ConduitEffect :=
  let flushed := st.readyQueue.map fun q =>
    ConduitEffect.postMessage (conduitPayload q.methodName q.requestId q.data) conduitTargetOrigin
  ({ st with conduitWindow := event.source, conduitOrigin := some event.origin,
             readyFulfilled := true, readyQueue := [] },
   flushed)

/-- `AlConduitClient.onDispatchReply(event)`: settles the pending request
matching the reply's id and removes its entry; an unknown id only draws a
diagnostic warning. -/
def onDispatchReply (st : ConduitState) (event : ConduitEvent) : ConduitState × List ConduitEffect :=
  let requestId := asStringD (event.data.getProp "requestId")
  if st.requests.contains requestId then
    ({ st with requests := st.requests.erase requestId },
     [ConduitEffect.resolveRequest requestId event.data])
  else
    (st, [ConduitEffect.logWarning ("Warning: received a conduit response to an unknown request with ID "
                                    ++ requestId ++ "; multiple clients running?")])

/-- `AlConduitClient.onExternalSessionEstablished(event)`: resolves any
per-location listener, or records an already-resolved promise for the
location. -/
def onExternalSessionEstablished (st : ConduitState) (event : ConduitEvent) :
    ConduitState × List ConduitEffect :=
  match asStringOpt (event.data.getProp "locationId") with
  | none => (st, [])
  | some locationId =>
    if st.externalSessions.contains locationId then
      (st, [ConduitEffect.resolveExternalSession locationId])
    else
      ({ st with externalSessions := st.externalSessions ++ [locationId] }, [])

/-- The timeout companion scheduled by `request`: warns, and if the
request is still pending, rejects it and removes its entry. -/
def conduitTimeoutFire (st : ConduitState) (requestId methodName : String) (timeoutSeconds : Nat) :
    ConduitState × List ConduitEffect :=
  let warning :=
    ConduitEffect.logWarning ("Conduit Warning: request " ++ methodName ++ " (ID " ++ requestId
                              ++ ") failed to resolve within " ++ toString timeoutSeconds
                              ++ " seconds; aborting.")
  if st.requests.contains requestId then
    ({ st with requests := st.requests.erase requestId },
     [warning, ConduitEffect.rejectRequest requestId
                 ("Failed to receive response to " ++ methodName ++ " request within "
                  ++ toString timeoutSeconds ++ "s")])
  else
    (st, [warning])

/-- `AlConduitClient.onReceiveMessage(event)`: disqualifies events without
a string `type`, a string `requestId`, an origin and a source; drops
events whose origin does not resolve to a whitelisted location type; and
routes the rest by message type.  `locator` is the external
`AlLocatorService.getNodeByURI` oracle. -/
def onReceiveMessage (locator : String → Option AlLocatorNode) (st : ConduitState)
    (event : ConduitEvent) : ConduitState × List ConduitEffect :=
  if !event.data.truthy
      || (event.data.getProp "type").jsTypeOf != "string"
      || (event.data.getProp "requestId").jsTypeOf != "string"
      || event.origin == ""
      || event.source.isNone then
    (st, [])
  else
    match locator event.origin with
    | none => (st, [])
    | some originNode =>
      if !(originNode.locTypeId == accountsUILocType || originNode.locTypeId == legacyUILocType) then
        (st, [])
      else
        match asStringD (event.data.getProp "type") with
        | "conduit.ready" => onConduitReady st event
        | "conduit.getSession" => onDispatchReply st event
        | "conduit.setSession" => onDispatchReply st event
        | "conduit.deleteSession" => onDispatchReply st event
        | "conduit.getGlobalSetting" => onDispatchReply st event
        | "conduit.setGlobalSetting" => onDispatchReply st event
        | "conduit.deleteGlobalSetting" => onDispatchReply st event
        | "conduit.getGlobalResource" => onDispatchReply st event
        | "conduit.externalSessionReady" => onExternalSessionEstablished st event
        | other =>
          (st, [ConduitEffect.logWarning ("O3ConduitService: Ignoring unrecognized message type: "
                                          ++ other)])

/-- The result projection of `deleteSession()`: the promise maps every
reply payload to the constant `true`. -/
def deleteSessionResult (_rawResponse : JsonValue) : Bool :=
  true

/-- The result projection of `getSession()`: the reply's `session` field. -/
def getSessionResult (rawResponse : JsonValue) : JsonValue :=
  rawResponse.getProp "session"

/-- The result projection of `deleteGlobalSetting()`: the reply's `result`
field. -/
def deleteGlobalSettingResult (rawResponse : JsonValue) : JsonValue :=
  rawResponse.getProp "result"

/-- Whether a conduit effect posts a message whose `requestId` field is
the given id. -/
def ConduitEffect.isPostWithId (requestId : String) : ConduitEffect → Bool
  | .postMessage payload _ => asStringD (payload.getProp "requestId") == requestId
  | _ => false

/-- Whether a conduit effect posts any message. -/
def ConduitEffect.isPost : ConduitEffect → Bool
  | .postMessage _ _ => true
  | _ => false

/-- Whether a conduit effect settles (resolves) the request with the given
id. -/
def ConduitEffect.isResolveOf (requestId : String) : ConduitEffect → Bool
  | .resolveRequest resolvedId _ => resolvedId == requestId
  | _ => false

/-- Replacement of the first occurrence of a character, as performed by
the JavaScript `String.replace(search, replacement)` with string
arguments. -/
def replaceFirstChar (search replacement : Char) : List Char → List Char
  | [] => []
  | c :: rest =>
    if c = search then replacement :: rest
    else c :: replaceFirstChar search replacement rest

/-- `token.split('.')` for the single-character separator the code uses
(JavaScript semantics: an empty string splits to `[""]`). -/
def splitOnChar (sep : Char) : List Char → List (List Char)
  | [] => [[]]
  | c :: rest =>
    let groups := splitOnChar sep rest
    if c = sep then [] :: groups
    else
      match groups with
      | g :: gs => (c :: g) :: gs
      | [] => [[c]]

/-- `token.split('.')` lifted to strings. -/
def jsSplitDots (s : String) : List String :=
  (splitOnChar '.' s.data).map fun cs => String.mk cs

/-- The base64 string handed to `atob`: the token's second dot-separated
segment with its first `-` and first `_` character replaced (JavaScript's
`String.replace` with string arguments replaces only the first
occurrence). -/
def jwtSecondSegment (token : String) : String :=
  String.mk (replaceFirstChar '_' '/'
    (replaceFirstChar '-' '+' ((jsSplitDots token).getD 1 "").data))

/-- `AlSessionDetector.getTokenExpiration(token)`: splits the token on
dots, base64-url-normalizes the second segment, decodes and parses it, and
reads the `exp` claim.  `decodeBase64Json` is the oracle for the browser's
`JSON.parse(window.atob(...))` composite (`none` models either step
throwing, which the code catches).  The result pairs the returned value
with the warnings logged; an `error` result models the uncaught
`TypeError` raised by `'exp' in userData` when the parsed JSON is a
primitive. -/
def getTokenExpiration (decodeBase64Json : String → Option JsonValue) (token : String) :
    Except String (JsonValue × List String) :=
  let split := jsSplitDots token
  if split.length < 2 then
    .ok (.num 0, ["Warning: unexpected JWT format causing existing session not to be recognized."])
  else
    match decodeBase64Json (jwtSecondSegment token) with
    | none =>
      .ok (.num 0, ["Warning: invalid JWT encoding causing existing session not to be recognized."])
    | some userData =>
      match userData with
      | .obj _ =>
        if userData.hasProp "exp" then .ok (userData.getProp "exp", [])
        else .ok (.num 0, ["Warning: invalid JWT user data causing existing session not to be recognized."])
      | .arr _ =>
        .ok (.num 0, ["Warning: invalid JWT user data causing existing session not to be recognized."])
      | _ => .error "TypeError: cannot use in operator to search for exp in a primitive"

/-- Terminal behavior of one `detectSession` invocation: the promise
settles with a boolean, or is never settled at all. -/
inductive DetectOutcome where
  | settled (result : Bool) : DetectOutcome
  | pending : DetectOutcome
deriving DecidableEq, Repr

/-- Outcome of the third-party (auth0) probe sequence inside
`detectSession`, abstracting the authenticator callbacks. -/
inductive Auth0Probe where
  /-- `checkSession` reported an error or returned no access token. -/
  | checkFailed : Auth0Probe
  /-- the userInfo callback reported an error or no identity data. -/
  | userInfoFailed : Auth0Probe
  /-- the extracted identity lacked an account id or user id. -/
  | identityIncomplete : Auth0Probe
  /-- a full identity was recovered; ingestion of the minimal proposal
  follows. -/
  | gotIdentity : Auth0Probe
  /-- configuring or invoking the authenticator threw synchronously. -/
  | syncException : Auth0Probe
deriving DecidableEq, Repr

/-- `AlSessionDetector.detectSession`, reduced to its settlement
structure: which terminal call (`onDetectionSuccess`, `onDetectionFail`,
or neither) the discovery control flow reaches.  `sessionIsActive` is the
session machine's current activity, `conduitSession` the relay's reply,
`ingestConduit`/`ingestAuth0` the outcomes of
`ingestExistingSession` on the respective proposals, and `auth0` the
third-party probe's outcome. -/
def detectSessionOutcome (sessionIsActive : Bool) (conduitSession : JsonValue)
    (ingestConduit : Except String Unit) (useAuth0 : Bool) (auth0 : Auth0Probe)
    (ingestAuth0 : Except String Unit) : DetectOutcome :=
  if sessionIsActive then
    .settled true
  else if conduitSession.truthy && conduitSession.jsTypeOf == "object" then
    match ingestConduit with
    | .ok _ => .settled true
    | .error _ => .settled false
  else if useAuth0 then
    match auth0 with
    | .checkFailed => .settled false
    | .userInfoFailed => .settled false
    | .identityIncomplete => .settled false
    | .syncException => .settled false
    | .gotIdentity =>
      match ingestAuth0 with
      | .ok _ => .settled true
      | .error _ => .settled false
  else
    .pending

lemma lookupField_append (a b : List (String × JsonValue)) (name : String) :
    lookupField (a ++ b) name =
      match lookupField a name with
      | some v => some v
      | none => lookupField b name := by
  induction a with
  | nil => simp [lookupField]
  | cons head tail ih =>
    obtain ⟨k, v⟩ := head
    by_cases h : k = name <;> simp [lookupField, h, ih]

lemma getProp_objAssign_of_hasProp (target source : JsonValue) (name : String)
    (h : source.hasProp name = true) :
    (objAssign target source).getProp name = source.getProp name := by
  cases source with
  | obj fields =>
    simp only [JsonValue.hasProp, Option.isSome_iff_exists] at h
    obtain ⟨v, hv⟩ := h
    simp [objAssign, JsonValue.getProp, toObjFields, lookupField_append, hv]
  | undefined => simp [JsonValue.hasProp] at h
  | null => simp [JsonValue.hasProp] at h
  | bool b => simp [JsonValue.hasProp] at h
  | num n => simp [JsonValue.hasProp] at h
  | str s => simp [JsonValue.hasProp] at h
  | arr items => simp [JsonValue.hasProp] at h

/-- A trivially unavailable set of external services, used to instantiate
theorems at concrete states. -/
def extUnavailable : AlExternalServices :=
  { getAccountDetails := fun _ => .error "unavailable",
    getEntitlements := fun _ => .error "unavailable",
    getConsolidatedMetadata := fun _ => .error "unavailable",
    insightLocations := [] }

/-- C1: a proposal that fails schema validation, or whose
`token_expiration` is not strictly greater than the current timestamp,
makes `setAuthentication` throw synchronously and leaves the entire
session state — in-memory descriptor, active flag and persisted storage —
exactly as it was. -/
theorem setAuthentication_invalid_is_noop (now : Int) (ext : AlExternalServices)
    (st : SessionState) (proposal : JsonValue) (options : AlSessionAuthOptions)
    (h : validateSessionDescriptor proposal = .ok () →
         asIntD ((proposal.getProp "authentication").getProp "token_expiration") ≤ now) :
    (setAuthentication now ext st proposal options).1 = st ∧
    ∃ e, (setAuthentication now ext st proposal options).2.2 = .error e := by
  cases hv : validateSessionDescriptor proposal with
  | error e =>
    simp only [setAuthentication, hv]
    exact ⟨trivial, e, rfl⟩
  | ok u =>
    cases u
    have hle := h hv
    simp only [setAuthentication, hv, if_pos hle]
    exact ⟨trivial, _, rfl⟩

/-- Witness for C1 at a concrete malformed proposal. -/
theorem setAuthentication_invalid_is_noop_witness :
    (setAuthentication 0 extUnavailable initialSessionState .null {}).1 = initialSessionState ∧
    ∃ e, (setAuthentication 0 extUnavailable initialSessionState .null {}).2.2 = .error e :=
  setAuthentication_invalid_is_noop 0 extUnavailable initialSessionState .null {}
    (fun hcontra => Except.noConfusion hcontra)

lemma setActiveDatacenter_state (ext : AlExternalServices) (st : SessionState)
    (insightLocationId : String) :
    (setActiveDatacenter ext st insightLocationId).1 =
      { st with
          sessionData := { st.sessionData with boundLocationId := some insightLocationId },
          storage := (setActiveDatacenter ext st insightLocationId).1.storage } := by
  unfold setActiveDatacenter
  split
  · rfl
  · next hcond =>
    simp only [Bool.not_eq_true, Bool.or_eq_false_iff] at hcond
    obtain ⟨h1, h2⟩ := hcond
    simp only [bne, Bool.not_eq_false', beq_iff_eq] at h2
    rw [← h2]

lemma resolveActingAccount_preserves (ext : AlExternalServices) (st : SessionState)
    (account : AIMSAccount) :
    (resolveActingAccount ext st account).1.sessionData = st.sessionData ∧
    (resolveActingAccount ext st account).1.sessionIsActive = st.sessionIsActive ∧
    (resolveActingAccount ext st account).1.storage = st.storage ∧
    (resolveActingAccount ext st account).1.options = st.options := by
  unfold resolveActingAccount
  rcases h1 : ext.getAccountDetails account.id with e | d <;>
    rcases h2 : ext.getEntitlements st.getPrimaryAccountId with e2 | p <;>
      simp only [h1, h2]
  · and_intros <;> trivial
  · and_intros <;> trivial
  · and_intros <;> trivial
  · split
    · split <;> (and_intros <;> trivial)
    · and_intros <;> trivial

lemma resolveActingAccountConsolidated_preserves (ext : AlExternalServices) (st : SessionState)
    (account : AIMSAccount) :
    (resolveActingAccountConsolidated ext st account).1.sessionData = st.sessionData ∧
    (resolveActingAccountConsolidated ext st account).1.sessionIsActive = st.sessionIsActive ∧
    (resolveActingAccountConsolidated ext st account).1.storage = st.storage ∧
    (resolveActingAccountConsolidated ext st account).1.options = st.options := by
  unfold resolveActingAccountConsolidated
  rcases h1 : ext.getConsolidatedMetadata account.id with e | md <;> simp only [h1]
  · exact resolveActingAccount_preserves ext st account
  · and_intros <;> trivial

lemma setActingAccountRecord_descriptor (ext : AlExternalServices) (st : SessionState)
    (account : AIMSAccount) :
    (setActingAccountRecord ext st account).1.sessionData.acting = some account ∧
    (setActingAccountRecord ext st account).1.sessionData.authentication
      = st.sessionData.authentication ∧
    (setActingAccountRecord ext st account).1.sessionIsActive = st.sessionIsActive ∧
    (setActingAccountRecord ext st account).1.sessionData.boundLocationId =
      some (match st.sessionData.boundLocationId with
            | some bound =>
              if account.accessible_locations.contains bound then bound
              else account.default_location
            | none => account.default_location) := by
  simp only [setActingAccountRecord]
  rw [setActiveDatacenter_state]
  split
  · and_intros <;> rfl
  · split
    · split
      · refine ⟨?_, ?_, ?_, ?_⟩
        · rw [(resolveActingAccountConsolidated_preserves ext _ account).1]
        · rw [(resolveActingAccountConsolidated_preserves ext _ account).1]
        · rw [(resolveActingAccountConsolidated_preserves ext _ account).2.1]
        · rw [(resolveActingAccountConsolidated_preserves ext _ account).1]
      · refine ⟨?_, ?_, ?_, ?_⟩
        · rw [(resolveActingAccount_preserves ext _ account).1]
        · rw [(resolveActingAccount_preserves ext _ account).1]
        · rw [(resolveActingAccount_preserves ext _ account).2.1]
        · rw [(resolveActingAccount_preserves ext _ account).1]
    · and_intros <;> rfl

/-- C8: for every `setActingAccount` call with a full account record, the
resulting bound location is the previous bound location whenever the new
acting account's `accessible_locations` list contains it, and the new
acting account's `default_location` otherwise. -/
theorem setActingAccount_bound_location (ext : AlExternalServices) (st : SessionState)
    (account : AIMSAccount) :
    (setActingAccount ext st (.byRecord account)).1.sessionData.boundLocationId =
      some (match st.sessionData.boundLocationId with
            | some bound =>
              if account.accessible_locations.contains bound then bound
              else account.default_location
            | none => account.default_location) :=
  (setActingAccountRecord_descriptor ext st account).2.2.2

/-- Whether a session effect is an outbound network request. -/
def SessionEffect.isNetworkRequest : SessionEffect → Bool
  | .netGetAccountDetails _ => true
  | .netGetEntitlements _ => true
  | .netGetConsolidatedMetadata _ => true
  | _ => false

/-- Whether a session effect is the acting-account-changing event. -/
def SessionEffect.isActingAccountChangedEvent : SessionEffect → Bool
  | .evActingAccountChanged _ _ => true
  | _ => false

lemma setActiveDatacenter_effects (ext : AlExternalServices) (st : SessionState)
    (insightLocationId : String) :
    ∀ e ∈ (setActiveDatacenter ext st insightLocationId).2,
      e.isNetworkRequest = false ∧ e.isActingAccountChangedEvent = false := by
  unfold setActiveDatacenter
  split
  · split <;> (intro e he; fin_cases he <;> exact ⟨rfl, rfl⟩)
  · intro e he
    simp at he

/-- C2 (amended): a `setActingAccount` call with a full account record
whose id matches the current acting account, made after resolution has
completed (the guard is fulfilled) with metadata resolution enabled,
fires no network request and no acting-account-changing event, and
returns the existing resolved context. -/
theorem setActingAccount_same_record_no_refetch (ext : AlExternalServices) (st : SessionState)
    (account : AIMSAccount)
    (hacting : st.sessionData.acting.map (fun a => a.id) = some account.id)
    (hguard : st.guardFulfilled = true)
    (hmeta : st.options.resolveAccountMetadata = true) :
    (∀ e ∈ (setActingAccount ext st (.byRecord account)).2.1,
        e.isNetworkRequest = false ∧ e.isActingAccountChangedEvent = false) ∧
    (setActingAccount ext st (.byRecord account)).2.2 = .ok st.resolvedAccount := by
  obtain ⟨prev, hprev, hid⟩ : ∃ p, st.sessionData.acting = some p ∧ p.id = account.id := by
    cases h : st.sessionData.acting with
    | none => rw [h] at hacting; simp at hacting
    | some p => rw [h] at hacting; exact ⟨p, rfl, by simpa using hacting⟩
  have hch : (match st.sessionData.acting with
              | none => true
              | some acting => acting.id != account.id) = false := by
    rw [hprev]
    simp [hid]
  simp only [setActingAccount, setActingAccountRecord, ActingAccountArg.argTruthy,
             Bool.not_true]
  rw [setActiveDatacenter_state]
  simp only [hch, hmeta, hguard, Bool.not_true, Bool.or_self, Bool.false_eq_true, if_false]
  exact ⟨setActiveDatacenter_effects ext _ _, trivial⟩

/-- A concrete acting account used to instantiate acting-account
theorems. -/
def acct1 : AIMSAccount :=
  { id := "a1", accessible_locations := ["l1"], default_location := "l1" }

/-- Concrete external services for which every lookup succeeds (and the
consolidated resolver is unavailable). -/
def extResolved : AlExternalServices :=
  { getAccountDetails := fun accountId =>
      .ok { id := accountId, accessible_locations := ["l1"], default_location := "l1" },
    getEntitlements := fun _ => .ok ⟨[]⟩,
    getConsolidatedMetadata := fun _ => .error "gestalt unavailable",
    insightLocations := [] }

/-- A concrete session state in which acting-account resolution for
`acct1` has already completed. -/
def stResolved : SessionState :=
  { sessionIsActive := true,
    sessionData := { authentication := nullSessionData.authentication,
                     acting := some acct1, boundLocationId := some "l1" },
    resolvedAccount := ⟨some acct1, ⟨[]⟩, ⟨[]⟩, ⟨⟩⟩,
    guardFulfilled := true,
    storage := none,
    options := {},
    defaultAccountId := some "a1" }

/-- Witness for the amended C2 at a concrete resolved state. -/
theorem setActingAccount_same_record_no_refetch_witness :
    (∀ e ∈ (setActingAccount extResolved stResolved (.byRecord acct1)).2.1,
        e.isNetworkRequest = false ∧ e.isActingAccountChangedEvent = false) ∧
    (setActingAccount extResolved stResolved (.byRecord acct1)).2.2
      = .ok stResolved.resolvedAccount :=
  setActingAccount_same_record_no_refetch extResolved stResolved acct1 rfl rfl rfl

/-- C2 (counterexample): calling `setActingAccount` a second time with
the same account given as a bare ID string does fire a network request —
the account-details lookup runs before the account is recognized as
unchanged — so the claim's "fires no network requests" fails for the
bare-ID form even in a fully resolved state. -/
theorem setActingAccount_same_id_refires_lookup :
    stResolved.sessionData.acting.map (fun a => a.id) = some "a1" ∧
    stResolved.guardFulfilled = true ∧
    SessionEffect.netGetAccountDetails "a1"
      ∈ (setActingAccount extResolved stResolved (.byId "a1")).2.1 :=
  ⟨rfl, rfl, List.mem_cons_self _ _⟩

lemma activateSession_state (now : Int) (st : SessionState) :
    (activateSession now st).1.sessionData = st.sessionData ∧
    (activateSession now st).1.storage = st.storage ∧
    (activateSession now st).1.options = st.options ∧
    (activateSession now st).1.guardFulfilled = st.guardFulfilled ∧
    (activateSession now st).1.resolvedAccount = st.resolvedAccount ∧
    (st.sessionData.authentication.token_expiration > now →
       (activateSession now st).1.sessionIsActive = true) := by
  by_cases hgt : st.sessionData.authentication.token_expiration > now <;>
    cases hb : st.sessionIsActive <;>
      simp [activateSession, hgt, hb]

lemma parseAIMSAccount_truthy (v : JsonValue) (account : AIMSAccount)
    (h : parseAIMSAccount v = some account) : v.truthy = true := by
  cases v <;> simp_all [parseAIMSAccount, JsonValue.getProp, asStringOpt, JsonValue.truthy]

lemma parseAIMSAccount_id (v : JsonValue) (account : AIMSAccount)
    (h : parseAIMSAccount v = some account) :
    asStringOpt (v.getProp "id") = some account.id := by
  unfold parseAIMSAccount at h
  rcases h1 : asStringOpt (v.getProp "id") with _ | accountId <;> rw [h1] at h
  · cases hl : v.getProp "accessible_locations" <;> rw [hl] at h <;> simp at h
  · cases hl : v.getProp "accessible_locations" <;> rw [hl] at h
    case arr items =>
      rcases h2 : asStringOpt (v.getProp "default_location") with _ | d <;> rw [h2] at h
      · simp at h
      · simp only [Option.some.injEq] at h
        rw [← h]
    all_goals simp at h

lemma jsonToActingArg_of_parse (v : JsonValue) (account : AIMSAccount)
    (h : parseAIMSAccount v = some account) :
    jsonToActingArg v = .ok (.byRecord account) := by
  have ht := parseAIMSAccount_truthy v account h
  cases v <;> simp_all [jsonToActingArg, parseAIMSAccount, JsonValue.getProp, asStringOpt,
                        JsonValue.truthy]

lemma resolveActingAccount_result_ok (ext : AlExternalServices) (st : SessionState)
    (account : AIMSAccount)
    (hA : ∀ a, ∃ r, ext.getAccountDetails a = .ok r)
    (hE : ∀ a, ∃ c, ext.getEntitlements a = .ok c) :
    ∃ resolved, (resolveActingAccount ext st account).2.2 = .ok resolved := by
  obtain ⟨d, hd⟩ := hA account.id
  obtain ⟨p, hp⟩ := hE st.getPrimaryAccountId
  cases hdiff : (some account.id != st.getPrimaryAccountId) with
  | false =>
    simp only [resolveActingAccount, hd, hp, hdiff, Bool.false_eq_true, if_false]
    exact ⟨_, rfl⟩
  | true =>
    obtain ⟨q, hq⟩ := hE (some account.id)
    simp only [resolveActingAccount, hd, hp, hdiff, if_true, hq]
    exact ⟨_, rfl⟩

lemma resolveActingAccountConsolidated_result_ok (ext : AlExternalServices) (st : SessionState)
    (account : AIMSAccount)
    (hA : ∀ a, ∃ r, ext.getAccountDetails a = .ok r)
    (hE : ∀ a, ∃ c, ext.getEntitlements a = .ok c) :
    ∃ resolved, (resolveActingAccountConsolidated ext st account).2.2 = .ok resolved := by
  unfold resolveActingAccountConsolidated
  rcases h1 : ext.getConsolidatedMetadata account.id with e | md <;> simp only [h1]
  · exact resolveActingAccount_result_ok ext st account hA hE
  · exact ⟨_, rfl⟩

lemma setActingAccountRecord_result_ok (ext : AlExternalServices) (st : SessionState)
    (account : AIMSAccount)
    (hA : ∀ a, ∃ r, ext.getAccountDetails a = .ok r)
    (hE : ∀ a, ∃ c, ext.getEntitlements a = .ok c) :
    ∃ resolved, (setActingAccountRecord ext st account).2.2 = .ok resolved := by
  simp only [setActingAccountRecord]
  rw [setActiveDatacenter_state]
  split
  · exact ⟨_, rfl⟩
  · split
    · split
      · exact resolveActingAccountConsolidated_result_ok ext _ account hA hE
      · exact resolveActingAccount_result_ok ext _ account hA hE
    · exact ⟨_, rfl⟩

lemma setActingAccount_byRecord_summary (ext : AlExternalServices) (st : SessionState)
    (account : AIMSAccount)
    (hA : ∀ a, ∃ r, ext.getAccountDetails a = .ok r)
    (hE : ∀ a, ∃ c, ext.getEntitlements a = .ok c) :
    (∃ resolved, (setActingAccount ext st (.byRecord account)).2.2 = .ok resolved) ∧
    (setActingAccount ext st (.byRecord account)).1.sessionData.acting = some account ∧
    (setActingAccount ext st (.byRecord account)).1.sessionData.authentication
      = st.sessionData.authentication ∧
    (setActingAccount ext st (.byRecord account)).1.sessionIsActive = st.sessionIsActive := by
  have hd := setActingAccountRecord_descriptor ext st account
  exact ⟨setActingAccountRecord_result_ok ext st account hA hE, hd.1, hd.2.1, hd.2.2.1⟩

/-- C7: for every proposal that passes schema validation, whose
`token_expiration` is strictly in the future, whose selected acting
account (the proposal's `acting` field when present, else its
authenticated account) reads as an account record, and whose external
lookups succeed, `setAuthentication` resolves; afterwards the session's
token and expiry equal the proposal's, every user/account field present in
the proposal reads back with the proposal's value (merge semantics),
`isActive()` is true, and the acting account id is the id of the selected
acting account. -/
theorem setAuthentication_valid_success (now : Int) (ext : AlExternalServices)
    (st : SessionState) (proposal : JsonValue) (actingRecord : AIMSAccount)
    (hvalid : validateSessionDescriptor proposal = .ok ())
    (hfuture : now < asIntD ((proposal.getProp "authentication").getProp "token_expiration"))
    (hparse : (if (proposal.getProp "acting").truthy
               then parseAIMSAccount (proposal.getProp "acting")
               else parseAIMSAccount ((proposal.getProp "authentication").getProp "account"))
              = some actingRecord)
    (hA : ∀ a, ∃ r, ext.getAccountDetails a = .ok r)
    (hE : ∀ a, ∃ c, ext.getEntitlements a = .ok c) :
    (∃ resolved, (setAuthentication now ext st proposal {}).2.2 = .ok resolved) ∧
    (setAuthentication now ext st proposal {}).1.getToken
      = asStringD ((proposal.getProp "authentication").getProp "token") ∧
    (setAuthentication now ext st proposal {}).1.getTokenExpiry
      = asIntD ((proposal.getProp "authentication").getProp "token_expiration") ∧
    (∀ name, ((proposal.getProp "authentication").getProp "user").hasProp name = true →
       (setAuthentication now ext st proposal {}).1.sessionData.authentication.user.getProp name
         = ((proposal.getProp "authentication").getProp "user").getProp name) ∧
    (∀ name, ((proposal.getProp "authentication").getProp "account").hasProp name = true →
       (setAuthentication now ext st proposal {}).1.sessionData.authentication.account.getProp name
         = ((proposal.getProp "authentication").getProp "account").getProp name) ∧
    (setAuthentication now ext st proposal {}).1.isActive = true ∧
    (setAuthentication now ext st proposal {}).1.getActingAccountId = some actingRecord.id := by
  have hnotle : ¬ (asIntD ((proposal.getProp "authentication").getProp "token_expiration") ≤ now) :=
    not_le.mpr hfuture
  by_cases htr : (proposal.getProp "acting").truthy = true
  · rw [if_pos htr] at hparse
    have hja := jsonToActingArg_of_parse _ _ hparse
    simp only [setAuthentication, hvalid]
    rw [if_neg hnotle]
    simp only [htr, if_true, hja]
    refine ⟨?_, ?_, ?_, ?_, ?_, ?_, ?_⟩
    · exact (setActingAccount_byRecord_summary ext _ actingRecord hA hE).1
    · rw [SessionState.getToken]
      rw [(setActingAccount_byRecord_summary ext _ actingRecord hA hE).2.2.1]
      rw [(activateSession_state now _).1]
    · rw [SessionState.getTokenExpiry]
      rw [(setActingAccount_byRecord_summary ext _ actingRecord hA hE).2.2.1]
      rw [(activateSession_state now _).1]
    · intro name hname
      rw [(setActingAccount_byRecord_summary ext _ actingRecord hA hE).2.2.1]
      rw [(activateSession_state now _).1]
      exact getProp_objAssign_of_hasProp _ _ name hname
    · intro name hname
      rw [(setActingAccount_byRecord_summary ext _ actingRecord hA hE).2.2.1]
      rw [(activateSession_state now _).1]
      exact getProp_objAssign_of_hasProp _ _ name hname
    · rw [SessionState.isActive]
      rw [(setActingAccount_byRecord_summary ext _ actingRecord hA hE).2.2.2]
      exact (activateSession_state now _).2.2.2.2.2 hfuture
    · simp only [SessionState.getActingAccountId, SessionState.isActive]
      rw [(setActingAccount_byRecord_summary ext _ actingRecord hA hE).2.2.2,
          (activateSession_state now _).2.2.2.2.2 hfuture,
          (setActingAccount_byRecord_summary ext _ actingRecord hA hE).2.1]
      simp
  · rw [if_neg htr] at hparse
    have hja := jsonToActingArg_of_parse _ _ hparse
    simp only [setAuthentication, hvalid]
    rw [if_neg hnotle]
    rw [if_neg htr]
    simp only [hja]
    refine ⟨?_, ?_, ?_, ?_, ?_, ?_, ?_⟩
    · exact (setActingAccount_byRecord_summary ext _ actingRecord hA hE).1
    · rw [SessionState.getToken]
      rw [(setActingAccount_byRecord_summary ext _ actingRecord hA hE).2.2.1]
      rw [(activateSession_state now _).1]
    · rw [SessionState.getTokenExpiry]
      rw [(setActingAccount_byRecord_summary ext _ actingRecord hA hE).2.2.1]
      rw [(activateSession_state now _).1]
    · intro name hname
      rw [(setActingAccount_byRecord_summary ext _ actingRecord hA hE).2.2.1]
      rw [(activateSession_state now _).1]
      exact getProp_objAssign_of_hasProp _ _ name hname
    · intro name hname
      rw [(setActingAccount_byRecord_summary ext _ actingRecord hA hE).2.2.1]
      rw [(activateSession_state now _).1]
      exact getProp_objAssign_of_hasProp _ _ name hname
    · rw [SessionState.isActive]
      rw [(setActingAccount_byRecord_summary ext _ actingRecord hA hE).2.2.2]
      exact (activateSession_state now _).2.2.2.2.2 hfuture
    · simp only [SessionState.getActingAccountId, SessionState.isActive]
      rw [(setActingAccount_byRecord_summary ext _ actingRecord hA hE).2.2.2,
          (activateSession_state now _).2.2.2.2.2 hfuture,
          (setActingAccount_byRecord_summary ext _ actingRecord hA hE).2.1]
      simp

/-- A concrete schema-valid session proposal (token `"t1"`, expiry 86400,
user `"u1"`, account `"a1"`, no explicit `acting`). -/
def proposalExample : JsonValue :=
  .obj [("authentication", .obj
    [("token", .str "t1"),
     ("token_expiration", .num 86400),
     ("user", .obj
       [("id", .str "u1"), ("name", .str "User One"), ("email", .str "u1@example.com"),
        ("linked_users", .arr []),
        ("created", .obj [("at", .num 1), ("by", .str "x")]),
        ("modified", .obj [("at", .num 1), ("by", .str "x")])]),
     ("account", .obj
       [("id", .str "a1"), ("name", .str "Account One"),
        ("accessible_locations", .arr [.str "l1"]), ("default_location", .str "l1"),
        ("created", .obj [("at", .num 1), ("by", .str "x")]),
        ("modified", .obj [("at", .num 1), ("by", .str "x")])])])]

/-- Witness for C7 at the concrete proposal. -/
theorem setAuthentication_valid_success_witness :
    (∃ resolved,
       (setAuthentication 0 extResolved initialSessionState proposalExample {}).2.2
         = .ok resolved) ∧
    (setAuthentication 0 extResolved initialSessionState proposalExample {}).1.getToken = "t1" ∧
    (setAuthentication 0 extResolved initialSessionState proposalExample {}).1.getTokenExpiry
      = 86400 ∧
    (setAuthentication 0 extResolved initialSessionState
       proposalExample {}).1.sessionData.authentication.user.getProp "id" = .str "u1" ∧
    (setAuthentication 0 extResolved initialSessionState
       proposalExample {}).1.sessionData.authentication.account.getProp "id" = .str "a1" ∧
    (setAuthentication 0 extResolved initialSessionState proposalExample {}).1.isActive = true ∧
    (setAuthentication 0 extResolved initialSessionState proposalExample {}).1.getActingAccountId
      = some "a1" := by
  have h := setAuthentication_valid_success 0 extResolved initialSessionState proposalExample
    acct1 rfl (by decide) rfl (fun a => ⟨_, rfl⟩) (fun a => ⟨⟨[]⟩, rfl⟩)
  exact ⟨h.1, h.2.1, h.2.2.1, h.2.2.2.1 "id" rfl, h.2.2.2.2.1 "id" rfl,
         h.2.2.2.2.2.1, h.2.2.2.2.2.2⟩

/-- C10 (implicit): `deleteSession()` maps every relay reply to the
constant `true` — in particular a reply reporting `result: false` is
indistinguishable from one reporting `result: true` through the resolved
value. -/
theorem deleteSession_resolves_true (replyData : JsonValue) :
    deleteSessionResult replyData = true ∧
    deleteSessionResult (.obj [("result", .bool false)])
      = deleteSessionResult (.obj [("result", .bool true)]) :=
  ⟨rfl, rfl⟩

/-- A locator oracle that recognizes only the trusted console.account
origin. -/
def locatorTrusted : String → Option AlLocatorNode := fun origin =>
  if origin == conduitTargetOrigin then some ⟨accountsUILocType⟩ else none

/-- C5 (counterexample): the readiness handshake as the spec spells it —
an envelope carrying only `{type: "conduit.ready"}` — is silently dropped
even from a trusted origin with a source window, because the inbound gate
also demands a string `requestId`; the transport does not transition to
Ready. -/
theorem onReceiveMessage_typeonly_ready_ignored :
    onReceiveMessage locatorTrusted initialConduitState
        ⟨.obj [("type", .str "conduit.ready")], conduitTargetOrigin, some 1⟩
      = (initialConduitState, []) ∧
    (onReceiveMessage locatorTrusted initialConduitState
        ⟨.obj [("type", .str "conduit.ready")], conduitTargetOrigin, some 1⟩).1.readyFulfilled
      = false :=
  ⟨rfl, rfl⟩

/-- C5 (amended): a `conduit.ready` message that carries a string
`requestId` alongside its type, arrives from an origin resolving to an
allow-listed location type, and has a source window makes the transport
transition to Ready: it records the frame's window handle and origin and
resolves the shared readiness promise. -/
theorem onReceiveMessage_ready_transitions (locator : String → Option AlLocatorNode)
    (st : ConduitState) (event : ConduitEvent)
    (hdataType : event.data.getProp "type" = .str "conduit.ready")
    (hreq : (event.data.getProp "requestId").jsTypeOf = "string")
    (horigin : event.origin ≠ "")
    (hsource : event.source.isSome = true)
    (hnode : ∃ node, locator event.origin = some node ∧
               (node.locTypeId = accountsUILocType ∨ node.locTypeId = legacyUILocType)) :
    (onReceiveMessage locator st event).1.readyFulfilled = true ∧
    (onReceiveMessage locator st event).1.conduitWindow = event.source ∧
    (onReceiveMessage locator st event).1.conduitOrigin = some event.origin := by
  obtain ⟨node, hlook, hwhite⟩ := hnode
  have htruthy : event.data.truthy = true := by
    cases hd : event.data <;> rw [hd] at hdataType <;>
      first
        | exact JsonValue.noConfusion hdataType
        | rfl
  have horiginBeq : (event.origin == "") = false := by
    simp [horigin]
  have hsourceNone : event.source.isNone = false := by
    cases hs : event.source with
    | none => rw [hs] at hsource; simp at hsource
    | some w => rfl
  have hwhiteBeq : (!(node.locTypeId == accountsUILocType
                     || node.locTypeId == legacyUILocType)) = false := by
    rcases hwhite with h | h <;> simp [h]
  simp only [onReceiveMessage, htruthy, hdataType, hreq, horiginBeq, hsourceNone, hlook,
             hwhiteBeq, Bool.not_true, Bool.false_or, Bool.or_false, Bool.or_self,
             Bool.false_eq_true, if_false, bne_self_eq_false, asStringD]
  exact ⟨rfl, rfl, rfl⟩

/-- Witness for the amended C5 at a concrete ready message carrying a
`requestId`. -/
theorem onReceiveMessage_ready_transitions_witness :
    (onReceiveMessage locatorTrusted initialConduitState
       ⟨.obj [("type", .str "conduit.ready"), ("requestId", .str "yohoho")],
        conduitTargetOrigin, some 1⟩).1.readyFulfilled = true ∧
    (onReceiveMessage locatorTrusted initialConduitState
       ⟨.obj [("type", .str "conduit.ready"), ("requestId", .str "yohoho")],
        conduitTargetOrigin, some 1⟩).1.conduitWindow = some 1 ∧
    (onReceiveMessage locatorTrusted initialConduitState
       ⟨.obj [("type", .str "conduit.ready"), ("requestId", .str "yohoho")],
        conduitTargetOrigin, some 1⟩).1.conduitOrigin = some conduitTargetOrigin := by
  have h := onReceiveMessage_ready_transitions locatorTrusted initialConduitState
    ⟨.obj [("type", .str "conduit.ready"), ("requestId", .str "yohoho")],
     conduitTargetOrigin, some 1⟩
    rfl rfl (by decide) rfl ⟨⟨accountsUILocType⟩, rfl, Or.inl rfl⟩
  exact h

/-- C3: a relay request issued with a positive timeout registers its
pending entry and schedules the companion timer; when the timer fires with
no reply having arrived, the request is rejected with a logged warning and
its entry is removed; a late reply carrying that request id afterwards
only draws the dropped-reply warning — it settles nothing and leaves the
state unchanged. -/
theorem conduitRequest_timeout_rejects (st : ConduitState) (methodName : String)
    (data : List (String × JsonValue)) (timeoutSeconds rand : Nat)
    (replyData : JsonValue) (replyOrigin : String) (replySource : Option Nat)
    (htimeout : 0 < timeoutSeconds)
    (hfresh : (conduitRequest st methodName data timeoutSeconds rand).2.2 ∉ st.requests)
    (hreply : asStringD (replyData.getProp "requestId")
              = (conduitRequest st methodName data timeoutSeconds rand).2.2) :
    (conduitRequest st methodName data timeoutSeconds rand).2.2
      ∈ (conduitRequest st methodName data timeoutSeconds rand).1.requests ∧
    ConduitEffect.scheduleTimeout (conduitRequest st methodName data timeoutSeconds rand).2.2
        methodName timeoutSeconds
      ∈ (conduitRequest st methodName data timeoutSeconds rand).2.1 ∧
    (∃ warning reason,
      (conduitTimeoutFire (conduitRequest st methodName data timeoutSeconds rand).1
          (conduitRequest st methodName data timeoutSeconds rand).2.2
          methodName timeoutSeconds).2
        = [ConduitEffect.logWarning warning,
           ConduitEffect.rejectRequest
             (conduitRequest st methodName data timeoutSeconds rand).2.2 reason]) ∧
    (conduitRequest st methodName data timeoutSeconds rand).2.2
      ∉ (conduitTimeoutFire (conduitRequest st methodName data timeoutSeconds rand).1
           (conduitRequest st methodName data timeoutSeconds rand).2.2
           methodName timeoutSeconds).1.requests ∧
    (onDispatchReply
        (conduitTimeoutFire (conduitRequest st methodName data timeoutSeconds rand).1
           (conduitRequest st methodName data timeoutSeconds rand).2.2
           methodName timeoutSeconds).1
        ⟨replyData, replyOrigin, replySource⟩).1
      = (conduitTimeoutFire (conduitRequest st methodName data timeoutSeconds rand).1
           (conduitRequest st methodName data timeoutSeconds rand).2.2
           methodName timeoutSeconds).1 ∧
    (∃ message,
      (onDispatchReply
          (conduitTimeoutFire (conduitRequest st methodName data timeoutSeconds rand).1
             (conduitRequest st methodName data timeoutSeconds rand).2.2
             methodName timeoutSeconds).1
          ⟨replyData, replyOrigin, replySource⟩).2
        = [ConduitEffect.logWarning message]) := by
  have hreq : (conduitRequest st methodName data timeoutSeconds rand).1.requests
      = st.requests ++ [(conduitRequest st methodName data timeoutSeconds rand).2.2] := by
    simp only [conduitRequest]
    split <;> rfl
  have hmem : (conduitRequest st methodName data timeoutSeconds rand).2.2
      ∈ (conduitRequest st methodName data timeoutSeconds rand).1.requests := by
    rw [hreq]; simp
  have hcontains : ((conduitRequest st methodName data timeoutSeconds rand).1.requests.contains
      (conduitRequest st methodName data timeoutSeconds rand).2.2) = true := by
    simp [hreq]
  have herase : ((conduitRequest st methodName data timeoutSeconds rand).1.requests.erase
      (conduitRequest st methodName data timeoutSeconds rand).2.2) = st.requests := by
    rw [hreq, List.erase_append_right _ hfresh]
    simp
  have hfire : (conduitTimeoutFire (conduitRequest st methodName data timeoutSeconds rand).1
        (conduitRequest st methodName data timeoutSeconds rand).2.2
        methodName timeoutSeconds).1.requests = st.requests := by
    simp only [conduitTimeoutFire, hcontains, if_true]
    exact herase
  refine ⟨hmem, ?_, ?_, ?_, ?_, ?_⟩
  · simp only [conduitRequest]
    split <;> simp [htimeout]
  · simp only [conduitTimeoutFire, hcontains, if_true]
    exact ⟨_, _, rfl⟩
  · rw [hfire]
    exact hfresh
  · have hnot : ((conduitTimeoutFire (conduitRequest st methodName data timeoutSeconds rand).1
        (conduitRequest st methodName data timeoutSeconds rand).2.2
        methodName timeoutSeconds).1.requests.contains
          (asStringD (replyData.getProp "requestId"))) = false := by
      rw [hreply, hfire]
      simpa using hfresh
    simp only [onDispatchReply, hnot, Bool.false_eq_true, if_false]
  · have hnot : ((conduitTimeoutFire (conduitRequest st methodName data timeoutSeconds rand).1
        (conduitRequest st methodName data timeoutSeconds rand).2.2
        methodName timeoutSeconds).1.requests.contains
          (asStringD (replyData.getProp "requestId"))) = false := by
      rw [hreply, hfire]
      simpa using hfresh
    simp only [onDispatchReply, hnot, Bool.false_eq_true, if_false]
    exact ⟨_, rfl⟩

/-- Witness for C3 at a concrete request of the initial conduit state. -/
theorem conduitRequest_timeout_rejects_witness :
    (conduitRequest initialConduitState "conduit.getSession" [] 5 1).2.2
      ∈ (conduitRequest initialConduitState "conduit.getSession" [] 5 1).1.requests ∧
    ConduitEffect.scheduleTimeout
        (conduitRequest initialConduitState "conduit.getSession" [] 5 1).2.2
        "conduit.getSession" 5
      ∈ (conduitRequest initialConduitState "conduit.getSession" [] 5 1).2.1 ∧
    (∃ warning reason,
      (conduitTimeoutFire (conduitRequest initialConduitState "conduit.getSession" [] 5 1).1
          (conduitRequest initialConduitState "conduit.getSession" [] 5 1).2.2
          "conduit.getSession" 5).2
        = [ConduitEffect.logWarning warning,
           ConduitEffect.rejectRequest
             (conduitRequest initialConduitState "conduit.getSession" [] 5 1).2.2 reason]) ∧
    (conduitRequest initialConduitState "conduit.getSession" [] 5 1).2.2
      ∉ (conduitTimeoutFire (conduitRequest initialConduitState "conduit.getSession" [] 5 1).1
           (conduitRequest initialConduitState "conduit.getSession" [] 5 1).2.2
           "conduit.getSession" 5).1.requests ∧
    (onDispatchReply
        (conduitTimeoutFire (conduitRequest initialConduitState "conduit.getSession" [] 5 1).1
           (conduitRequest initialConduitState "conduit.getSession" [] 5 1).2.2
           "conduit.getSession" 5).1
        ⟨.obj [("type", .str "conduit.getSession"),
               ("requestId", .str "conduit-request-1-1")],
         conduitTargetOrigin, some 1⟩).1
      = (conduitTimeoutFire (conduitRequest initialConduitState "conduit.getSession" [] 5 1).1
           (conduitRequest initialConduitState "conduit.getSession" [] 5 1).2.2
           "conduit.getSession" 5).1 ∧
    (∃ message,
      (onDispatchReply
          (conduitTimeoutFire (conduitRequest initialConduitState "conduit.getSession" [] 5 1).1
             (conduitRequest initialConduitState "conduit.getSession" [] 5 1).2.2
             "conduit.getSession" 5).1
          ⟨.obj [("type", .str "conduit.getSession"),
                 ("requestId", .str "conduit-request-1-1")],
           conduitTargetOrigin, some 1⟩).2
        = [ConduitEffect.logWarning message]) :=
  conduitRequest_timeout_rejects initialConduitState "conduit.getSession" [] 5 1
    (.obj [("type", .str "conduit.getSession"), ("requestId", .str "conduit-request-1-1")])
    conduitTargetOrigin (some 1)
    (by decide) (by simp [initialConduitState]) rfl

lemma conduitPayload_requestId (methodName requestId : String)
    (data : List (String × JsonValue)) (h : lookupField data "requestId" = none) :
    (conduitPayload methodName requestId data).getProp "requestId" = .str requestId := by
  simp [conduitPayload, objAssign, toObjFields, JsonValue.getProp, lookupField_append, h,
        lookupField]

/-- C4: a relay request issued before the transport is Ready registers its
pending entry immediately, posts nothing at call time, and — when the
readiness handshake arrives — exactly one message carrying its request id
is posted, with the queue drained so nothing can be posted twice. -/
theorem conduitRequest_preReady_delivered_once (st : ConduitState) (methodName : String)
    (data : List (String × JsonValue)) (timeoutSeconds rand : Nat) (readyEvent : ConduitEvent)
    (hnotready : st.readyFulfilled = false)
    (hdata : lookupField data "requestId" = none)
    (hqueue : ∀ q ∈ st.readyQueue,
        q.requestId ≠ (conduitRequest st methodName data timeoutSeconds rand).2.2 ∧
        lookupField q.data "requestId" = none) :
    (conduitRequest st methodName data timeoutSeconds rand).2.2
      ∈ (conduitRequest st methodName data timeoutSeconds rand).1.requests ∧
    (∀ e ∈ (conduitRequest st methodName data timeoutSeconds rand).2.1, e.isPost = false) ∧
    ((onConduitReady (conduitRequest st methodName data timeoutSeconds rand).1 readyEvent).2.countP
       (ConduitEffect.isPostWithId (conduitRequest st methodName data timeoutSeconds rand).2.2)
      = 1) ∧
    (onConduitReady (conduitRequest st methodName data timeoutSeconds rand).1
        readyEvent).1.readyQueue = [] := by
  have hreq : (conduitRequest st methodName data timeoutSeconds rand).1.requests
      = st.requests ++ [(conduitRequest st methodName data timeoutSeconds rand).2.2] := by
    simp only [conduitRequest]
    split <;> rfl
  have hrq : (conduitRequest st methodName data timeoutSeconds rand).1.readyQueue
      = st.readyQueue
        ++ [⟨methodName, (conduitRequest st methodName data timeoutSeconds rand).2.2, data⟩] := by
    simp only [conduitRequest, hnotready, Bool.false_eq_true, if_false]
  refine ⟨?_, ?_, ?_, ?_⟩
  · rw [hreq]; simp
  · simp only [conduitRequest, hnotready, Bool.false_eq_true, if_false]
    split
    · intro e he
      simp at he
      rw [he]
      rfl
    · intro e he
      simp at he
  · simp only [onConduitReady, hrq, List.map_append, List.countP_append, List.map_cons,
               List.map_nil]
    have hzero : (st.readyQueue.map fun q =>
        ConduitEffect.postMessage (conduitPayload q.methodName q.requestId q.data)
          conduitTargetOrigin).countP
        (ConduitEffect.isPostWithId
          (conduitRequest st methodName data timeoutSeconds rand).2.2) = 0 := by
      rw [List.countP_eq_zero]
      intro e he
      rw [List.mem_map] at he
      obtain ⟨q, hq, rfl⟩ := he
      simp only [ConduitEffect.isPostWithId,
                 conduitPayload_requestId q.methodName q.requestId q.data (hqueue q hq).2,
                 asStringD]
      simp [(hqueue q hq).1]
    rw [hzero]
    simp only [List.countP_cons, List.countP_nil, ConduitEffect.isPostWithId,
               conduitPayload_requestId methodName _ data hdata, asStringD]
    simp
  · rfl

/-- Witness for C4 at a concrete pre-ready request. -/
theorem conduitRequest_preReady_delivered_once_witness :
    (conduitRequest initialConduitState "conduit.getSession" [] 0 7).2.2
      ∈ (conduitRequest initialConduitState "conduit.getSession" [] 0 7).1.requests ∧
    (∀ e ∈ (conduitRequest initialConduitState "conduit.getSession" [] 0 7).2.1,
        e.isPost = false) ∧
    ((onConduitReady (conduitRequest initialConduitState "conduit.getSession" [] 0 7).1
        ⟨.obj [("type", .str "conduit.ready"), ("requestId", .str "yohoho")],
         conduitTargetOrigin, some 1⟩).2.countP
       (ConduitEffect.isPostWithId
         (conduitRequest initialConduitState "conduit.getSession" [] 0 7).2.2) = 1) ∧
    (onConduitReady (conduitRequest initialConduitState "conduit.getSession" [] 0 7).1
        ⟨.obj [("type", .str "conduit.ready"), ("requestId", .str "yohoho")],
         conduitTargetOrigin, some 1⟩).1.readyQueue = [] :=
  conduitRequest_preReady_delivered_once initialConduitState "conduit.getSession" [] 0 7
    ⟨.obj [("type", .str "conduit.ready"), ("requestId", .str "yohoho")],
     conduitTargetOrigin, some 1⟩
    rfl rfl (by simp [initialConduitState])

/-- A decode oracle agreeing with the browser's `JSON.parse(atob(...))`
on the probed strings: `atob("eyJleHAiOjV9")` is the JSON text of an
object whose `exp` claim is 5, and `atob("NQ==")` is `"5"`, a JSON
primitive. -/
def decodeJwtExample : String → Option JsonValue := fun base64 =>
  if base64 == "eyJleHAiOjV9" then some (.obj [("exp", .num 5)])
  else if base64 == "NQ==" then some (.num 5)
  else none

/-- C9 (counterexample): the extractor does not require three segments —
a two-segment token whose second segment decodes to `{"exp":5}` yields 5,
not the 0 the claim requires for a malformed segment count; and a token
whose second segment decodes to the JSON primitive `5` makes the `'exp'
in userData` test throw a `TypeError`, so the extractor is not
throw-free. -/
theorem getTokenExpiration_nonstandard_segments :
    (jsSplitDots "a.eyJleHAiOjV9").length = 2 ∧
    getTokenExpiration decodeJwtExample "a.eyJleHAiOjV9" = .ok (.num 5, []) ∧
    (getTokenExpiration decodeJwtExample "x.NQ==").isOk = false :=
  ⟨rfl, rfl, rfl⟩

/-- C9 (amended): for every decode oracle and token, the expiry extractor
returns the `exp` claim exactly when the token has at least two
dot-separated segments and the normalized second segment decodes to a
JSON object carrying `exp`; fewer than two segments, undecodable content,
or an object/array without `exp` yield 0 with a logged warning; and a
second segment decoding to a JSON primitive raises a `TypeError` (the
`'exp' in userData` test), so the extractor is throw-free only for
non-primitive decodes. -/
theorem getTokenExpiration_behavior (decode : String → Option JsonValue) (token : String) :
    ((jsSplitDots token).length < 2 →
       getTokenExpiration decode token
         = .ok (.num 0,
             ["Warning: unexpected JWT format causing existing session not to be recognized."])) ∧
    (∀ fields, 2 ≤ (jsSplitDots token).length →
       decode (jwtSecondSegment token) = some (.obj fields) →
       ((JsonValue.obj fields).hasProp "exp" = true →
          getTokenExpiration decode token = .ok ((JsonValue.obj fields).getProp "exp", [])) ∧
       ((JsonValue.obj fields).hasProp "exp" = false →
          getTokenExpiration decode token
            = .ok (.num 0,
                ["Warning: invalid JWT user data causing existing session not to be recognized."]))) ∧
    (2 ≤ (jsSplitDots token).length →
       decode (jwtSecondSegment token) = none →
       getTokenExpiration decode token
         = .ok (.num 0,
             ["Warning: invalid JWT encoding causing existing session not to be recognized."])) ∧
    (∀ n, 2 ≤ (jsSplitDots token).length →
       decode (jwtSecondSegment token) = some (.num n) →
       (getTokenExpiration decode token).isOk = false) := by
  refine ⟨?_, ?_, ?_, ?_⟩
  · intro hlt
    unfold getTokenExpiration
    rw [if_pos hlt]
  · intro fields hlen hdec
    have hnot : ¬ ((jsSplitDots token).length < 2) := not_lt.mpr hlen
    constructor
    · intro hexp
      unfold getTokenExpiration
      rw [if_neg hnot, hdec]
      simp only [hexp, if_true]
    · intro hexp
      unfold getTokenExpiration
      rw [if_neg hnot, hdec]
      simp only [hexp, Bool.false_eq_true, if_false]
  · intro hlen hdec
    have hnot : ¬ ((jsSplitDots token).length < 2) := not_lt.mpr hlen
    unfold getTokenExpiration
    rw [if_neg hnot, hdec]
  · intro n hlen hdec
    have hnot : ¬ ((jsSplitDots token).length < 2) := not_lt.mpr hlen
    unfold getTokenExpiration
    rw [if_neg hnot, hdec]
    rfl

/-- Witness for the amended C9 at concrete tokens covering all four
behaviors. -/
theorem getTokenExpiration_behavior_witness :
    getTokenExpiration decodeJwtExample "bad"
      = .ok (.num 0,
          ["Warning: unexpected JWT format causing existing session not to be recognized."]) ∧
    getTokenExpiration decodeJwtExample "a.eyJleHAiOjV9" = .ok (.num 5, []) ∧
    getTokenExpiration decodeJwtExample "a.zzz"
      = .ok (.num 0,
          ["Warning: invalid JWT encoding causing existing session not to be recognized."]) ∧
    (getTokenExpiration decodeJwtExample "x.NQ==").isOk = false := by
  refine ⟨(getTokenExpiration_behavior decodeJwtExample "bad").1 (by decide), ?_, ?_, ?_⟩
  · exact ((getTokenExpiration_behavior decodeJwtExample "a.eyJleHAiOjV9").2.1
      [("exp", .num 5)] (by decide) rfl).1 rfl
  · exact (getTokenExpiration_behavior decodeJwtExample "a.zzz").2.2.1 (by decide) rfl
  · exact (getTokenExpiration_behavior decodeJwtExample "x.NQ==").2.2.2 5 (by decide) rfl

/-- C6 (code bug): when the session machine is inactive, the relay reports
no session (a null reply), and the third-party authenticator is disabled,
`detectSession` reaches no terminal call at all — neither
`onDetectionSuccess` nor `onDetectionFail` — so its promise is never
settled, for every possible ingestion or probe outcome.  This contradicts
the claim (and the method's own documentation) that every invocation
resolves with a boolean. -/
theorem detectSession_pending_without_auth0 :
    detectSessionOutcome false .null (.ok ()) false .checkFailed (.ok ()) = .pending ∧
    (∀ ingestConduit auth0 ingestAuth0,
       detectSessionOutcome false .null ingestConduit false auth0 ingestAuth0 = .pending) :=
  ⟨rfl, fun _ _ _ => rfl⟩
